import Mathlib

/-!
Shallow embedding of src/streamlit_app.py (Dimensions search + chatbot).

Modelling conventions:
* pandas cells are Option String; astype(str) maps a missing cell to the
  string "nan" (cellStr).
* pandas Series.str.contains(pat, case=False) is modelled as a
  case-insensitive literal substring test (strContainsCI); this is exact for
  patterns free of regex metacharacters, which covers every pattern the
  specification discusses.
* Python str.strip and str.lower are modelled over the ASCII range
  (pyStrip, lowerStr).
* The regexes of _extract_top_n and of the "mentioning <words>" phrase are
  modelled by explicit scanners with the same first-match and
  greedy-with-backtracking semantics.
-/

namespace ChatApp

/-- Python whitespace test over the ASCII range: space, tab, newline,
carriage return, vertical tab, form feed. -/
def isPyWS (c : Char) : Bool :=
  c == ' ' || c == '\t' || c == '\n' || c == '\r' || c.toNat == 11 || c.toNat == 12

/-- Python str.strip: drop leading and trailing whitespace. -/
def pyStrip (s : String) : String :=
  String.mk (((s.data.dropWhile isPyWS).reverse.dropWhile isPyWS).reverse)

/-- Python str.lower, ASCII range. -/
def lowerStr (s : String) : String :=
  String.mk (s.data.map Char.toLower)

/-- q.lower().strip() as computed at the top of route_query. -/
def pyLowerStrip (s : String) : String :=
  pyStrip (lowerStr s)

/-- needle occurs as a contiguous sublist of hay. -/
def listInfix (needle : List Char) : List Char → Bool
  | [] => needle.isEmpty
  | c :: rest => needle.isPrefixOf (c :: rest) || listInfix needle rest

/-- Python substring test: pat in hay (case-sensitive). -/
def hasSub (hay pat : String) : Bool :=
  listInfix pat.data hay.data

/-- pandas str.contains(pat, case=False) for a metacharacter-free pattern:
case-insensitive substring containment. -/
def strContainsCI (hay pat : String) : Bool :=
  listInfix (pat.data.map Char.toLower) (hay.data.map Char.toLower)

/-- astype(str) on one cell: a missing value stringifies to "nan". -/
def cellStr : Option String → String
  | none => "nan"
  | some s => s

/-- One row of the loaded table, restricted to the four columns the filter
block touches (Authors, Title, Abstract, and the resolved MeSH column). -/
structure Row where
  authors : Option String
  title : Option String
  abstract : Option String
  mesh : Option String
deriving DecidableEq

/-- A selectable search field of the "Search keyword in:" multiselect. -/
inductive Field
  | title
  | abstract
  | mesh
deriving DecidableEq

/-- The column a field name designates in a row. -/
def fieldCell (r : Row) : Field → Option String
  | Field.title => r.title
  | Field.abstract => r.abstract
  | Field.mesh => r.mesh

/-- Line 63-64: if author_query.strip(): results = results[results["Authors"]
.astype(str).str.contains(author_query.strip(), case=False, na=False)]. -/
def applyAuthorFilter (aq : String) (t : List Row) : List Row :=
  if pyStrip aq = "" then t
  else t.filter (fun r => strContainsCI (cellStr r.authors) (pyStrip aq))

/-- Whether a selected field produces a mask in the loop of lines 68-74:
the "MeSH terms" branch additionally requires mesh_col to be bound. -/
def fieldBound (meshBound : Bool) : Field → Bool
  | Field.mesh => meshBound
  | _ => true

/-- The selected fields that produce a mask in the loop of lines 68-74. -/
def contentActive (meshBound : Bool) (fields : List Field) : List Field :=
  fields.filter (fieldBound meshBound)

/-- Lines 66-79: if content_query.strip() and selected_fields: build one
case-insensitive containment mask per bound selected field (content_query
NOT stripped), OR the masks, and keep the rows where the OR holds; if no
mask was built, the table is left unchanged. -/
def applyContentFilter (meshBound : Bool) (cq : String) (fields : List Field)
    (t : List Row) : List Row :=
  if pyStrip cq ≠ "" ∧ fields ≠ [] then
    if contentActive meshBound fields ≠ [] then
      t.filter (fun r =>
        (contentActive meshBound fields).any (fun f => strContainsCI (cellStr (fieldCell r f)) cq))
    else t
  else t

/-- Lines 61-79: the whole sidebar filter block (author stage then content
stage). -/
def applyFilter (meshBound : Bool) (aq cq : String) (fields : List Field)
    (t : List Row) : List Row :=
  applyContentFilter meshBound cq fields (applyAuthorFilter aq t)

/-- The per-row author predicate: an empty (after strip) query constrains
nothing, otherwise the trimmed query must occur case-insensitively in the
stringified Authors cell. -/
def authorPass (aq : String) (r : Row) : Bool :=
  (pyStrip aq == "") || strContainsCI (cellStr r.authors) (pyStrip aq)

/-- A DataFrame as seen by route_query: named columns of optional cells,
in column order. Well-formed frames have all columns of one length. -/
abbrev DF := List (String × List (Option String))

/-- len(data): the row count, read off the first column. -/
def nrows (d : DF) : Nat :=
  match d with
  | [] => 0
  | (_, col) :: _ => col.length

/-- data.columns. -/
def colNames (d : DF) : List String :=
  d.map (fun p => p.1)

/-- data[name]: the first column carrying the given name, if any. -/
def getCol (d : DF) (name : String) : Option (List (Option String)) :=
  (d.find? (fun p => p.1 == name)).map (fun p => p.2)

/-- ", ".join(...) and friends. -/
def joinSep (sep : String) : List String → String
  | [] => ""
  | [x] => x
  | x :: xs => x ++ sep ++ joinSep sep xs

/-- Insert a comma after every third character of a reversed digit list. -/
def commaGroup : List Char → List Char
  | a :: b :: c :: d :: rest => a :: b :: c :: ',' :: commaGroup (d :: rest)
  | l => l

/-- Python format specifier "{:,}": decimal digits grouped in threes by
commas. -/
def fmtThousands (n : Nat) : String :=
  String.mk ((commaGroup (Nat.repr n).data.reverse).reverse)

/-- Split a string on every semicolon (pandas str.split(";")). -/
def splitSemiAux (acc : List Char) : List Char → List (List Char)
  | [] => [acc.reverse]
  | c :: rest =>
    if c == ';' then acc.reverse :: splitSemiAux [] rest
    else splitSemiAux (c :: acc) rest

/-- pandas str.split(";") on one cell. -/
def splitSemi (s : String) : List String :=
  (splitSemiAux [] s.data).map String.mk

/-- Lines 124-127 of _safe_series_counts before value_counts: dropna,
astype(str); if strictly more than 30 percent of the non-missing values
contain a semicolon, split each cell on semicolons, flatten, strip each
token; finally drop empty tokens. The float comparison mean() > 0.3 is
modelled exactly as 10 * (number containing ";") > 3 * (total). -/
def tokensOf (series : List (Option String)) : List String :=
  let s := series.filterMap id
  let s2 :=
    if 10 * (s.filter (fun c => c.data.contains ';')).length > 3 * s.length then
      s.flatMap (fun c => (splitSemi c).map pyStrip)
    else s
  s2.filter (fun c => !(c == ""))

/-- Distinct values in first-seen order (the accumulator holds the values
already emitted). -/
def dedupAux (seen : List String) : List String → List String
  | [] => []
  | x :: xs => if x ∈ seen then dedupAux seen xs else x :: dedupAux (x :: seen) xs

/-- Stable insertion into a list sorted by descending count: the new pair
goes before the first strictly smaller count, and before no equal count of
an earlier-seen value. -/
def insertByCount (x : String × Nat) : List (String × Nat) → List (String × Nat)
  | [] => [x]
  | y :: ys => if y.2 ≤ x.2 then x :: y :: ys else y :: insertByCount x ys

/-- Stable sort by descending count. -/
def sortByCountDesc : List (String × Nat) → List (String × Nat)
  | [] => []
  | x :: xs => insertByCount x (sortByCountDesc xs)

/-- pandas value_counts: occurrence counts of the distinct values, sorted
by descending count (ties kept in first-seen order). -/
def valueCounts (l : List String) : List (String × Nat) :=
  sortByCountDesc ((dedupAux [] l).map (fun v => (v, l.count v)))

/-- Lines 123-128: _safe_series_counts with split_semicolon=True. -/
def safeSeriesCounts (series : List (Option String)) : List (String × Nat) :=
  valueCounts (tokensOf series)

/-- Regex word character: [A-Za-z0-9_]. -/
def isWordChar (c : Char) : Bool :=
  c.isAlpha || c.isDigit || c == '_'

/-- int() on a decimal digit list. -/
def digitsToNat (ds : List Char) : Nat :=
  ds.foldl (fun a c => a * 10 + (c.toNat - 48)) 0

/-- Attempt the regex "top\s+(\d+)\b" (IGNORECASE) at the head of the list;
the word boundary before "top" is checked by the scanner. Returns the
captured integer on success. -/
def tryTopAt : List Char → Option Nat
  | t :: o :: p :: rest =>
    if t.toLower == 't' && o.toLower == 'o' && p.toLower == 'p' then
      let ws := rest.takeWhile isPyWS
      if ws.isEmpty then none
      else
        let rest2 := rest.drop ws.length
        let ds := rest2.takeWhile Char.isDigit
        if ds.isEmpty then none
        else
          match rest2.drop ds.length with
          | [] => some (digitsToNat ds)
          | c :: _ => if isWordChar c then none else some (digitsToNat ds)
    else none
  | _ => none

/-- re.search for "\btop\s+(\d+)\b": try each position left to right whose
predecessor is not a word character. -/
def scanTop (prevW : Bool) : List Char → Option Nat
  | [] => none
  | c :: rest =>
    match (if prevW then none else tryTopAt (c :: rest)) with
    | some n => some n
    | none => scanTop (isWordChar c) rest

/-- Attempt the regex "\b(\d+)\b" at the head of the list (boundary before
is checked by the scanner). -/
def tryNumAt (l : List Char) : Option Nat :=
  let ds := l.takeWhile Char.isDigit
  if ds.isEmpty then none
  else
    match l.drop ds.length with
    | [] => some (digitsToNat ds)
    | c :: _ => if isWordChar c then none else some (digitsToNat ds)

/-- re.search for "\b(\d+)\b": first standalone digit run. -/
def scanNum (prevW : Bool) : List Char → Option Nat
  | [] => none
  | c :: rest =>
    match (if prevW then none else tryNumAt (c :: rest)) with
    | some n => some n
    | none => scanNum (isWordChar c) rest

/-- re.search(r"\btop\s+(\d+)\b", text, re.IGNORECASE). -/
def findTopNum (s : String) : Option Nat :=
  scanTop false s.data

/-- re.search(r"\b(\d+)\b", text). -/
def findAnyNum (s : String) : Option Nat :=
  scanNum false s.data

/-- Lines 116-121: _extract_top_n. -/
def extractTopN (text : String) (default : Nat) : Nat :=
  match findTopNum text with
  | some n => max 1 n
  | none =>
    match findAnyNum text with
    | some n => max 1 n
    | none => default

/-- Character class [A-Za-z0-9\-\s] of the "mentioning" capture group. -/
def isMentionCls (c : Char) : Bool :=
  c.isAlpha || c.isDigit || c == '-' || isPyWS c

/-- Attempt the regex "mentioning\s+([A-Za-z0-9\-\s]+)" at the head of the
list. Greedy \s+ first takes the whole whitespace run; if no class
character follows, backtracking hands one whitespace character to the
group (possible only when the run has length at least two). -/
def tryMentionAt (l : List Char) : Option (List Char) :=
  if ("mentioning".data).isPrefixOf l then
    let rest := l.drop 10
    let ws := rest.takeWhile isPyWS
    if ws.isEmpty then none
    else
      let rest2 := rest.drop ws.length
      let cap := rest2.takeWhile isMentionCls
      if !cap.isEmpty then some cap
      else if 2 ≤ ws.length then some ((rest.drop (ws.length - 1)).takeWhile isMentionCls)
      else none
  else none

/-- re.search for "mentioning\s+([A-Za-z0-9\-\s]+)". -/
def scanMention : List Char → Option (List Char)
  | [] => none
  | c :: rest =>
    match tryMentionAt (c :: rest) with
    | some cap => some cap
    | none => scanMention rest

/-- Line 196-199: the optional "mentioning <words>" keyword, stripped. -/
def extractMention (ql : String) : Option String :=
  (scanMention ql.data).map (fun cap => pyStrip (String.mk cap))

/-- The fixed help reply of lines 144-153. -/
def helpText : String :=
  "You can ask things like:\n" ++
  "- **how many rows?** or **how many matches?**\n" ++
  "- **top 10 authors** / **top institutions 5**\n" ++
  "- **list titles** (optionally: **list titles mentioning ketamine**)\n" ++
  "- **what columns are available?**\n" ++
  "- **summary** (basic dataset summary)\n" ++
  "- **clear chat**"

/-- The fixed fallback reply of lines 207-212. -/
def fallbackText : String :=
  "Sorry, I didn\x27t recognize that. Try: **how many matches**, **top 10 authors**, " ++
  "**top institutions 5**, **list titles**, **what columns are available** or **summary**. " ++
  "Type **clear chat** to reset."

/-- The alias set of line 185 for an institution-like column. -/
def instAliases : List String :=
  ["institution", "institutions", "affiliation", "affiliations",
   "organization", "organizations"]

/-- The recognized intents, in cascade order (Unrecognized is the absence
of a match). -/
inductive Intent
  | clear
  | help
  | rowCount
  | columnList
  | summary
  | topAuthors
  | topInstitutions
  | listTitles
deriving DecidableEq

/-- The trigger condition of each cascade rule, verbatim from the if
conditions of route_query applied to q_lower. -/
def trigger (ql : String) : Intent → Bool
  | Intent.clear => ql == "clear" || ql == "clear chat" || ql == "reset"
  | Intent.help =>
      hasSub ql "help" || hasSub ql "what can you do" || hasSub ql "commands" ||
      hasSub ql "options"
  | Intent.rowCount => hasSub ql "how many" && (hasSub ql "row" || hasSub ql "match")
  | Intent.columnList =>
      hasSub ql "column" && (hasSub ql "what" || hasSub ql "list" || hasSub ql "available")
  | Intent.summary => hasSub ql "summary"
  | Intent.topAuthors => hasSub ql "top" && hasSub ql "author"
  | Intent.topInstitutions =>
      hasSub ql "top" &&
        (hasSub ql "institution" || hasSub ql "affiliation" || hasSub ql "organization")
  | Intent.listTitles => hasSub ql "list" && hasSub ql "title"

/-- The cascade order of route_query. -/
def intentOrder : List Intent :=
  [Intent.clear, Intent.help, Intent.rowCount, Intent.columnList, Intent.summary,
   Intent.topAuthors, Intent.topInstitutions, Intent.listTitles]

/-- First rule of the cascade whose trigger holds; none means the
Unrecognized fallback. -/
def classify (ql : String) : Option Intent :=
  intentOrder.find? (trigger ql)

/-- A result table shown by the chat: a two-column {label, Count} frequency
table or a single Title column. -/
inductive OutTable
  | counts (label : String) (rows : List (String × Nat))
  | titles (rows : List (Option String))
deriving DecidableEq

/-- A chat message content: markdown text or a dataframe. -/
inductive ChatContent
  | text (s : String)
  | table (t : OutTable)
deriving DecidableEq

/-- One entry of st.session_state.messages. -/
structure ChatTurn where
  role : String
  content : ChatContent
deriving DecidableEq

/-- The body of the TopAuthors branch, lines 174-181. -/
def topAuthorsBranch (ql : String) (data : DF) (session : List ChatTurn) :
    String × Option OutTable × List ChatTurn :=
  match getCol data "Authors" with
  | some col =>
    let n := extractTopN ql 10
    let out := (safeSeriesCounts col).take n
    ("Top " ++ toString out.length ++ " authors:", some (OutTable.counts "Author" out), session)
  | none => ("I couldn\x27t find the Authors column.", none, session)

/-- The body of the TopInstitutions branch, lines 183-192. -/
def topInstitutionsBranch (ql : String) (data : DF) (session : List ChatTurn) :
    String × Option OutTable × List ChatTurn :=
  match (colNames data).find? (fun c => instAliases.contains (lowerStr c)) with
  | some instCol =>
    match getCol data instCol with
    | some col =>
      let n := extractTopN ql 10
      let out := (safeSeriesCounts col).take n
      ("Top " ++ toString out.length ++ " institutions:",
        some (OutTable.counts "Institution" out), session)
    | none => ("I couldn\x27t find an Institution/Affiliation column.", none, session)
  | none => ("I couldn\x27t find an Institution/Affiliation column.", none, session)

/-- The body of the ListTitles branch, lines 194-204: sub-filter the Title
column by the optional "mentioning" keyword, take the first 200 titles. -/
def listTitlesBranch (ql : String) (data : DF) (session : List ChatTurn) :
    String × Option OutTable × List ChatTurn :=
  match getCol data "Title" with
  | some titles =>
    let ts :=
      match extractMention ql with
      | some kw => titles.filter (fun c => strContainsCI (cellStr c) kw)
      | none => titles
    let out := ts.take 200
    ("Here are up to " ++ toString out.length ++ " titles:",
      some (OutTable.titles out), session)
  | none => ("I couldn\x27t find the Title column.", none, session)

/-- The reply of the RowCount branch, line 157. -/
def rowCountReply (data : DF) : String :=
  "There are **" ++ fmtThousands (nrows data) ++ "** rows in the current scope."

/-- The reply of the ColumnList branch, lines 161-162. -/
def columnListReply (data : DF) : String :=
  "Available columns:\n\n" ++ joinSep ", " (colNames data)

/-- The reply of the Summary branch, lines 166-170. -/
def summaryReply (data : DF) : String :=
  "- Rows: **" ++ fmtThousands (nrows data) ++ "**\n" ++
  "- Columns: **" ++ toString (colNames data).length ++ "**\n" ++
  "- Example columns: " ++ joinSep ", " ((colNames data).take 10)

/-- Lines 130-212: route_query. The session list stands for
st.session_state.messages; only the Clear branch rewrites it. -/
def routeQuery (q : String) (data : DF) (session : List ChatTurn) :
    String × Option OutTable × List ChatTurn :=
  let ql := pyLowerStrip q
  if trigger ql Intent.clear then ("Chat cleared.", none, [])
  else if trigger ql Intent.help then (helpText, none, session)
  else if trigger ql Intent.rowCount then (rowCountReply data, none, session)
  else if trigger ql Intent.columnList then (columnListReply data, none, session)
  else if trigger ql Intent.summary then (summaryReply data, none, session)
  else if trigger ql Intent.topAuthors then topAuthorsBranch ql data session
  else if trigger ql Intent.topInstitutions then topInstitutionsBranch ql data session
  else if trigger ql Intent.listTitles then listTitlesBranch ql data session
  else (fallbackText, none, session)

/-- The handler of the rule an intent names (or the fallback), used to
state that the cascade dispatches on the first matching rule. -/
def execIntent (oi : Option Intent) (ql : String) (data : DF)
    (session : List ChatTurn) : String × Option OutTable × List ChatTurn :=
  match oi with
  | some Intent.clear => ("Chat cleared.", none, [])
  | some Intent.help => (helpText, none, session)
  | some Intent.rowCount => (rowCountReply data, none, session)
  | some Intent.columnList => (columnListReply data, none, session)
  | some Intent.summary => (summaryReply data, none, session)
  | some Intent.topAuthors => topAuthorsBranch ql data session
  | some Intent.topInstitutions => topInstitutionsBranch ql data session
  | some Intent.listTitles => listTitlesBranch ql data session
  | none => (fallbackText, none, session)

/-- Lines 224-238: the chat input handler. After route_query returns, the
user prompt and the assistant text reply are appended to the session, and a
table reply is appended as its own extra assistant turn. -/
def submitChat (prompt : String) (scope : DF) (session : List ChatTurn) :
    String × Option OutTable × List ChatTurn :=
  let res := routeQuery prompt scope session
  let s2 := res.2.2 ++ [ChatTurn.mk "user" (ChatContent.text prompt)]
  let s3 := s2 ++ [ChatTurn.mk "assistant" (ChatContent.text res.1)]
  let s4 :=
    match res.2.1 with
    | some t => s3 ++ [ChatTurn.mk "assistant" (ChatContent.table t)]
    | none => s3
  (res.1, res.2.1, s4)

/-! ### Generic filter lemmas -/

theorem filter_idem {α : Type} (p : α → Bool) (l : List α) :
    (l.filter p).filter p = l.filter p := by
  induction l with
  | nil => rfl
  | cons a t ih =>
    by_cases h : p a = true
    · simp [List.filter_cons, h, ih]
    · simp [List.filter_cons, h, ih]

theorem filter_comm {α : Type} (p q : α → Bool) (l : List α) :
    (l.filter p).filter q = (l.filter q).filter p := by
  induction l with
  | nil => rfl
  | cons a t ih =>
    by_cases hp : p a = true <;> by_cases hq : q a = true <;>
      simp [List.filter_cons, hp, hq, ih]

/-! ### Stage lemmas for the sidebar filter -/

theorem applyAuthorFilter_idem (aq : String) (t : List Row) :
    applyAuthorFilter aq (applyAuthorFilter aq t) = applyAuthorFilter aq t := by
  unfold applyAuthorFilter
  by_cases h : pyStrip aq = "" <;> simp [h, filter_idem]

theorem applyContentFilter_idem (mb : Bool) (cq : String) (fields : List Field)
    (t : List Row) :
    applyContentFilter mb cq fields (applyContentFilter mb cq fields t)
      = applyContentFilter mb cq fields t := by
  unfold applyContentFilter
  by_cases h1 : pyStrip cq ≠ "" ∧ fields ≠ []
  · by_cases h2 : contentActive mb fields ≠ [] <;> simp [h1, h2, filter_idem]
  · simp [h1]

theorem applyAuthorFilter_comm_content (mb : Bool) (aq cq : String)
    (fields : List Field) (t : List Row) :
    applyAuthorFilter aq (applyContentFilter mb cq fields t)
      = applyContentFilter mb cq fields (applyAuthorFilter aq t) := by
  unfold applyAuthorFilter applyContentFilter
  by_cases h1 : pyStrip aq = "" <;> by_cases h2 : pyStrip cq ≠ "" ∧ fields ≠ [] <;>
    by_cases h3 : contentActive mb fields ≠ [] <;>
      simp [h1, h2, h3, filter_comm, Bool.and_comm]

theorem sublist_applyAuthorFilter (aq : String) (t : List Row) :
    List.Sublist (applyAuthorFilter aq t) t := by
  unfold applyAuthorFilter
  split
  · exact List.Sublist.refl t
  · exact List.filter_sublist t

theorem sublist_applyContentFilter (mb : Bool) (cq : String) (fields : List Field)
    (t : List Row) : List.Sublist (applyContentFilter mb cq fields t) t := by
  unfold applyContentFilter
  split
  · split
    · exact List.filter_sublist t
    · exact List.Sublist.refl t
  · exact List.Sublist.refl t

theorem mem_applyAuthorFilter (aq : String) (t : List Row) (r : Row) :
    r ∈ applyAuthorFilter aq t ↔ r ∈ t ∧ authorPass aq r = true := by
  unfold applyAuthorFilter authorPass
  by_cases h : pyStrip aq = ""
  · simp [h]
  · simp [h, List.mem_filter]

theorem mem_of_applyContentFilter (mb : Bool) (cq : String) (fields : List Field)
    (t : List Row) (r : Row) (h : r ∈ applyContentFilter mb cq fields t) : r ∈ t :=
  (sublist_applyContentFilter mb cq fields t).subset h

/-- C8: for every table and every FilterSpec (author query, content query,
selected field set, MeSH binding), applying the sidebar filter twice in
succession yields the same result table as applying it once. -/
theorem c8_filter_idempotent (mb : Bool) (aq cq : String) (fields : List Field)
    (t : List Row) :
    applyFilter mb aq cq fields (applyFilter mb aq cq fields t)
      = applyFilter mb aq cq fields t := by
  unfold applyFilter
  rw [applyAuthorFilter_comm_content, applyAuthorFilter_idem, applyContentFilter_idem]

/-- C10: the filtered result is a subsequence of the input table (each
result row is an input row, relative order preserved, no duplication), so
its row count never exceeds the input count, and it equals the input when
both queries are empty after stripping. -/
theorem c10_filter_sublist (mb : Bool) (aq cq : String) (fields : List Field)
    (t : List Row) :
    List.Sublist (applyFilter mb aq cq fields t) t
      ∧ (applyFilter mb aq cq fields t).length ≤ t.length
      ∧ (pyStrip aq = "" → pyStrip cq = "" → applyFilter mb aq cq fields t = t) := by
  have hs : List.Sublist (applyFilter mb aq cq fields t) t :=
    List.Sublist.trans
      (sublist_applyContentFilter mb cq fields (applyAuthorFilter aq t))
      (sublist_applyAuthorFilter aq t)
  refine ⟨hs, hs.length_le, fun ha hc => ?_⟩
  unfold applyFilter applyAuthorFilter applyContentFilter
  simp [ha, hc]

/-- Witness for C10 at a concrete table and the empty FilterSpec. -/
theorem c10_filter_sublist_witness :
    applyFilter false "" "" [] [Row.mk (some "a") none none none]
      = [Row.mk (some "a") none none none] :=
  (c10_filter_sublist false "" "" [] [Row.mk (some "a") none none none]).2.2
    (by decide) (by decide)

/-- When every selected field is bound (mesh only selectable once the MeSH
column resolved), every selected field produces a mask. -/
theorem contentActive_eq_self (mb : Bool) (fields : List Field)
    (h : Field.mesh ∈ fields → mb = true) : contentActive mb fields = fields := by
  unfold contentActive
  rw [List.filter_eq_self]
  intro f hf
  cases f with
  | title => rfl
  | abstract => rfl
  | mesh => simpa [fieldBound] using h hf

/-- C1: with a non-empty (after stripping) content query and a non-empty
selected field set (whose fields are all bound), a row is in the filtered
result iff it is a row of the table, its author predicate holds, and at
least one selected field contains the untrimmed query case-insensitively;
with an empty query or field set the result is the author-filtered table
unchanged. -/
theorem c1_content_filter_semantics (mb : Bool) (aq cq : String)
    (fields : List Field) (t : List Row) (hmesh : Field.mesh ∈ fields → mb = true) :
    (pyStrip cq ≠ "" → fields ≠ [] → ∀ r : Row,
        (r ∈ applyFilter mb aq cq fields t ↔
          r ∈ t ∧ authorPass aq r = true ∧
            fields.any (fun f => strContainsCI (cellStr (fieldCell r f)) cq) = true))
      ∧ ((pyStrip cq = "" ∨ fields = []) →
          applyFilter mb aq cq fields t = applyAuthorFilter aq t) := by
  constructor
  · intro hcq hf r
    have hact : contentActive mb fields = fields := contentActive_eq_self mb fields hmesh
    unfold applyFilter applyContentFilter
    rw [hact]
    simp [hcq, hf, List.mem_filter, mem_applyAuthorFilter, and_assoc]
  · intro h
    unfold applyFilter applyContentFilter
    rcases h with h | h <;> simp [h]

/-- Witness for C1: OR semantics at a row matching in Abstract only. -/
theorem c1_content_filter_semantics_witness :
    (Row.mk none (some "Sleep") (some "Mindfulness and stress") none) ∈
      applyFilter false "" "mind" [Field.title, Field.abstract]
        [Row.mk none (some "Sleep") (some "Mindfulness and stress") none] :=
  ((c1_content_filter_semantics false "" "mind" [Field.title, Field.abstract]
        [Row.mk none (some "Sleep") (some "Mindfulness and stress") none]
        (by decide)).1
      (by decide) (by decide) (Row.mk none (some "Sleep") (some "Mindfulness and stress") none)).2
    ⟨by decide, by decide, by decide⟩

/-- Counterexample to C2 as stated: a row whose Authors cell is missing is
stringified to "nan" by astype(str), so it does match the non-empty query
"nan" and survives the author filter. -/
theorem c2_author_filter_counterexample :
    (Row.mk none (some "T") (some "A") none) ∈
        applyFilter false "nan" "" [] [Row.mk none (some "T") (some "A") none]
      ∧ (Row.mk none (some "T") (some "A") none).authors = none
      ∧ ("nan" : String) ≠ "" := by
  decide

/-- C2 (amended): every row of the filtered result has the trimmed
non-empty author query as a case-insensitive substring of its stringified
Authors cell, where a missing cell stringifies to "nan" (and hence can
match queries contained in "nan"); an empty query excludes no row. -/
theorem c2_author_filter_amended (mb : Bool) (aq cq : String)
    (fields : List Field) (t : List Row) :
    (∀ r : Row, r ∈ applyFilter mb aq cq fields t → pyStrip aq ≠ "" →
        strContainsCI (cellStr r.authors) (pyStrip aq) = true)
      ∧ (∀ r : Row, r.authors = none → cellStr r.authors = "nan")
      ∧ (pyStrip aq = "" → applyAuthorFilter aq t = t) := by
  refine ⟨?_, ?_, ?_⟩
  · intro r hr hne
    have h1 : r ∈ applyAuthorFilter aq t := mem_of_applyContentFilter _ _ _ _ _ hr
    have h2 := ((mem_applyAuthorFilter aq t r).1 h1).2
    unfold authorPass at h2
    simpa [hne] using h2
  · intro r h
    rw [h]
    rfl
  · intro h
    unfold applyAuthorFilter
    simp [h]

/-- Witness for C2 (amended) at a concrete row and query. -/
theorem c2_author_filter_amended_witness :
    strContainsCI (cellStr (Row.mk (some "John SMITH") none none none).authors)
        (pyStrip " Smith ") = true :=
  (c2_author_filter_amended false " Smith " "" []
      [Row.mk (some "John SMITH") none none none]).1
    (Row.mk (some "John SMITH") none none none) (by decide) (by decide)

/-! ### The chat cascade dispatches on the first matching rule -/

theorem routeQuery_eq_exec (q : String) (d : DF) (s : List ChatTurn) :
    routeQuery q d s = execIntent (classify (pyLowerStrip q)) (pyLowerStrip q) d s := by
  unfold routeQuery classify intentOrder
  cases h1 : trigger (pyLowerStrip q) Intent.clear with
  | true => simp [h1, List.find?, execIntent]
  | false =>
  cases h2 : trigger (pyLowerStrip q) Intent.help with
  | true => simp [h1, h2, List.find?, execIntent]
  | false =>
  cases h3 : trigger (pyLowerStrip q) Intent.rowCount with
  | true => simp [h1, h2, h3, List.find?, execIntent]
  | false =>
  cases h4 : trigger (pyLowerStrip q) Intent.columnList with
  | true => simp [h1, h2, h3, h4, List.find?, execIntent]
  | false =>
  cases h5 : trigger (pyLowerStrip q) Intent.summary with
  | true => simp [h1, h2, h3, h4, h5, List.find?, execIntent]
  | false =>
  cases h6 : trigger (pyLowerStrip q) Intent.topAuthors with
  | true => simp [h1, h2, h3, h4, h5, h6, List.find?, execIntent]
  | false =>
  cases h7 : trigger (pyLowerStrip q) Intent.topInstitutions with
  | true => simp [h1, h2, h3, h4, h5, h6, h7, List.find?, execIntent]
  | false =>
  cases h8 : trigger (pyLowerStrip q) Intent.listTitles with
  | true => simp [h1, h2, h3, h4, h5, h6, h7, h8, List.find?, execIntent]
  | false => simp [h1, h2, h3, h4, h5, h6, h7, h8, List.find?, execIntent]

/-- C4: intent classification is an ordered first-match cascade over the
enumerated rule order; in particular a query triggering both Help and
RowCount gets the Help reply. -/
theorem c4_first_match_cascade :
    (∀ (q : String) (d : DF) (s : List ChatTurn),
        routeQuery q d s = execIntent (classify (pyLowerStrip q)) (pyLowerStrip q) d s)
      ∧ (∀ (d : DF) (s : List ChatTurn),
          trigger (pyLowerStrip "help how many rows") Intent.rowCount = true ∧
            routeQuery "help how many rows" d s = (helpText, none, s)) := by
  refine ⟨routeQuery_eq_exec, fun d s => ⟨by decide, ?_⟩⟩
  rw [routeQuery_eq_exec]
  have h : classify (pyLowerStrip "help how many rows") = some Intent.help := by decide
  rw [h]
  rfl

/-- C9: a query on which no cascade rule triggers gets the fixed fallback
reply, no table, and an unchanged session; the router is a total function,
so it returns on every input. -/
theorem c9_fallback_total (q : String) (d : DF) (s : List ChatTurn)
    (h : classify (pyLowerStrip q) = none) :
    routeQuery q d s = (fallbackText, none, s) := by
  rw [routeQuery_eq_exec, h]
  rfl

/-- Witness for C9 at the nonsense query of the specification. -/
theorem c9_fallback_total_witness :
    routeQuery "xyzzy nonsense" [] [] = (fallbackText, none, []) :=
  c9_fallback_total "xyzzy nonsense" [] [] (by decide)

/-- Counterexample to C3 as stated: after submitting "clear chat" the
session log is not empty — the handler appends the user turn and the
assistant acknowledgement after route_query cleared it. -/
theorem c3_clear_counterexample :
    ¬((submitChat "clear chat" [] [ChatTurn.mk "user" (ChatContent.text "hi")]).2.2 = []) := by
  decide

/-- C3 (amended): submitting a query whose trimmed lower-cased form is in
{"clear", "clear chat", "reset"} empties the prior session log inside
route_query, replies exactly "Chat cleared." with no table, and leaves the
session holding exactly the user turn and that assistant reply. -/
theorem c3_clear_amended (q : String) (d : DF) (session : List ChatTurn)
    (h : pyLowerStrip q = "clear" ∨ pyLowerStrip q = "clear chat" ∨ pyLowerStrip q = "reset") :
    submitChat q d session =
      ("Chat cleared.", none,
        [ChatTurn.mk "user" (ChatContent.text q),
         ChatTurn.mk "assistant" (ChatContent.text "Chat cleared.")]) := by
  have ht : trigger (pyLowerStrip q) Intent.clear = true := by
    rcases h with h | h | h <;> simp [trigger, h]
  unfold submitChat routeQuery
  simp [ht]

/-- Witness for C3 (amended): a session with one prior turn ends with only
the two new turns. -/
theorem c3_clear_amended_witness :
    submitChat "  Clear Chat " [] [ChatTurn.mk "user" (ChatContent.text "hi")] =
      ("Chat cleared.", none,
        [ChatTurn.mk "user" (ChatContent.text "  Clear Chat "),
         ChatTurn.mk "assistant" (ChatContent.text "Chat cleared.")]) :=
  c3_clear_amended "  Clear Chat " [] [ChatTurn.mk "user" (ChatContent.text "hi")]
    (Or.inr (Or.inl (by decide)))

/-! ### Value-counts lemmas -/

theorem mem_insertByCount_iff (x y : String × Nat) (l : List (String × Nat)) :
    y ∈ insertByCount x l ↔ y = x ∨ y ∈ l := by
  induction l with
  | nil => simp [insertByCount]
  | cons a t ih =>
    unfold insertByCount
    by_cases h : a.2 ≤ x.2
    · simp [h]
    · simp [h, ih, List.mem_cons, or_left_comm]

theorem mem_sortByCountDesc (y : String × Nat) (l : List (String × Nat)) :
    y ∈ sortByCountDesc l ↔ y ∈ l := by
  induction l with
  | nil => simp [sortByCountDesc]
  | cons a t ih => simp [sortByCountDesc, mem_insertByCount_iff, ih]

theorem pairwise_insertByCount (x : String × Nat) (l : List (String × Nat))
    (h : l.Pairwise (fun a b => b.2 ≤ a.2)) :
    (insertByCount x l).Pairwise (fun a b => b.2 ≤ a.2) := by
  induction l with
  | nil => simp [insertByCount]
  | cons a t ih =>
    rw [List.pairwise_cons] at h
    obtain ⟨ha, ht⟩ := h
    unfold insertByCount
    by_cases hc : a.2 ≤ x.2
    · rw [if_pos hc]
      refine List.Pairwise.cons ?_ (List.Pairwise.cons ha ht)
      intro b hb
      rcases List.mem_cons.1 hb with rfl | hb
      · exact hc
      · exact le_trans (ha b hb) hc
    · rw [if_neg hc]
      refine List.Pairwise.cons ?_ (ih ht)
      intro b hb
      rcases (mem_insertByCount_iff x b t).1 hb with rfl | hb
      · exact Nat.le_of_lt (Nat.lt_of_not_le hc)
      · exact ha b hb

theorem pairwise_sortByCountDesc (l : List (String × Nat)) :
    (sortByCountDesc l).Pairwise (fun a b => b.2 ≤ a.2) := by
  induction l with
  | nil => simp [sortByCountDesc]
  | cons a t ih => exact pairwise_insertByCount a _ ih

theorem mem_of_mem_dedupAux (y : String) :
    ∀ (l seen : List String), y ∈ dedupAux seen l → y ∈ l := by
  intro l
  induction l with
  | nil =>
    intro seen h
    simp [dedupAux] at h
  | cons x xs ih =>
    intro seen h
    unfold dedupAux at h
    by_cases hx : x ∈ seen
    · rw [if_pos hx] at h
      exact List.mem_cons_of_mem _ (ih seen h)
    · rw [if_neg hx] at h
      rcases List.mem_cons.1 h with rfl | h2
      · exact List.mem_cons_self _ _
      · exact List.mem_cons_of_mem _ (ih _ h2)

theorem mem_dedupAux_of (y : String) :
    ∀ (l seen : List String), y ∈ l → y ∉ seen → y ∈ dedupAux seen l := by
  intro l
  induction l with
  | nil =>
    intro seen h
    exact absurd h (List.not_mem_nil y)
  | cons x xs ih =>
    intro seen hy hs
    unfold dedupAux
    by_cases hx : x ∈ seen
    · rw [if_pos hx]
      rcases List.mem_cons.1 hy with rfl | h2
      · exact absurd hx hs
      · exact ih seen h2 hs
    · rw [if_neg hx]
      by_cases hyx : y = x
      · subst hyx
        exact List.mem_cons_self _ _
      · rcases List.mem_cons.1 hy with h1 | h2
        · exact absurd h1 hyx
        · refine List.mem_cons_of_mem _ (ih (x :: seen) h2 ?_)
          intro hmem
          rcases List.mem_cons.1 hmem with h3 | h3
          · exact hyx h3
          · exact hs h3

theorem ne_empty_of_mem_tokensOf (series : List (Option String)) (v : String)
    (h : v ∈ tokensOf series) : v ≠ "" := by
  unfold tokensOf at h
  have h2 := (List.mem_filter.1 h).2
  simpa using h2

/-- C5: frequency counting drops missing cells, splits every cell on
semicolons and trims tokens exactly when strictly more than 30 percent of
non-missing cells contain a semicolon (else cells are atomic tokens),
drops empty tokens, and returns counts sorted descending by count; taking
the first N keeps at most N rows. The two closed conjuncts evaluate the
split and no-split branches, including the Authors example of the
specification. -/
theorem c5_frequency_counts :
    (safeSeriesCounts [some "A;B", some "A", some "C;B"]
        = [("A", 2), ("B", 2), ("C", 1)])
      ∧ (safeSeriesCounts [some "A;B", some "A", some "C", some "D"]
          = [("A;B", 1), ("A", 1), ("C", 1), ("D", 1)])
      ∧ (∀ series : List (Option String),
          (safeSeriesCounts series).Pairwise (fun a b => b.2 ≤ a.2))
      ∧ (∀ (series : List (Option String)) (p : String × Nat),
          p ∈ safeSeriesCounts series →
            p.2 = (tokensOf series).count p.1 ∧ p.1 ≠ "")
      ∧ (∀ (series : List (Option String)) (v : String), v ∈ tokensOf series →
          (v, (tokensOf series).count v) ∈ safeSeriesCounts series)
      ∧ (∀ (series : List (Option String)) (n : Nat),
          ((safeSeriesCounts series).take n).length ≤ n) := by
  refine ⟨by decide, by decide, ?_, ?_, ?_, ?_⟩
  · intro series
    exact pairwise_sortByCountDesc _
  · intro series p hp
    unfold safeSeriesCounts valueCounts at hp
    rw [mem_sortByCountDesc] at hp
    rcases List.mem_map.1 hp with ⟨w, hw, hw2⟩
    have hv : w ∈ tokensOf series := mem_of_mem_dedupAux _ _ _ hw
    subst hw2
    exact ⟨rfl, ne_empty_of_mem_tokensOf _ _ hv⟩
  · intro series v hv
    unfold safeSeriesCounts valueCounts
    rw [mem_sortByCountDesc]
    exact List.mem_map.2 ⟨v, mem_dedupAux_of _ _ _ hv (List.not_mem_nil v), rfl⟩
  · intro series n
    simp [List.length_take]

/-- Witness for C5 at a pair of the Authors example. -/
theorem c5_frequency_counts_witness :
    (("A", 2) : String × Nat).2 = (tokensOf [some "A;B", some "A", some "C;B"]).count "A"
      ∧ (("A", 2) : String × Nat).1 ≠ "" :=
  c5_frequency_counts.2.2.2.1 [some "A;B", some "A", some "C;B"] ("A", 2) (by decide)

/-- C6: for a Top-intent query, N is the integer of the first
case-insensitive "top <digits>" occurrence if any, else the first
standalone digit run anywhere in the query, else the default 10; in the
first two cases N is clamped below by 1 (so "top 0 authors" gives 1). -/
theorem c6_extract_top_n :
    (∀ (text : String) (k : Nat), findTopNum text = some k →
        extractTopN text 10 = max 1 k)
      ∧ (∀ (text : String) (k : Nat), findTopNum text = none →
          findAnyNum text = some k → extractTopN text 10 = max 1 k)
      ∧ (∀ text : String, findTopNum text = none → findAnyNum text = none →
          extractTopN text 10 = 10)
      ∧ extractTopN "top 0 authors" 10 = 1
      ∧ extractTopN "top 5 authors" 10 = 5
      ∧ extractTopN "show 7 authors, top ones" 10 = 7
      ∧ extractTopN "top authors" 10 = 10 := by
  refine ⟨?_, ?_, ?_, by decide, by decide, by decide, by decide⟩
  · intro text k h
    unfold extractTopN
    rw [h]
  · intro text k h1 h2
    unfold extractTopN
    rw [h1, h2]
  · intro text h1 h2
    unfold extractTopN
    rw [h1, h2]

/-- Witness for C6: the clamp at "top 0 authors". -/
theorem c6_extract_top_n_witness :
    extractTopN "top 0 authors" 10 = max 1 0 :=
  c6_extract_top_n.1 "top 0 authors" 0 (by decide)

/-- C7: when the ListTitles rule is the first to match, the Title column is
present, and a "mentioning" keyword was extracted, the reply table holds
exactly the first 200 title cells whose stringification contains the
keyword case-insensitively, and the reply text states the number of rows
actually returned (so at most 200). -/
theorem c7_list_titles_filter (q : String) (d : DF) (s : List ChatTurn)
    (titles : List (Option String)) (kw : String)
    (hintent : classify (pyLowerStrip q) = some Intent.listTitles)
    (htitle : getCol d "Title" = some titles)
    (hkw : extractMention (pyLowerStrip q) = some kw) :
    routeQuery q d s =
        ("Here are up to "
            ++ toString ((titles.filter (fun c => strContainsCI (cellStr c) kw)).take 200).length
            ++ " titles:",
          some (OutTable.titles
            ((titles.filter (fun c => strContainsCI (cellStr c) kw)).take 200)), s)
      ∧ ((titles.filter (fun c => strContainsCI (cellStr c) kw)).take 200).length ≤ 200
      ∧ List.IsPrefix ((titles.filter (fun c => strContainsCI (cellStr c) kw)).take 200)
          (titles.filter (fun c => strContainsCI (cellStr c) kw))
      ∧ (∀ c ∈ (titles.filter (fun c => strContainsCI (cellStr c) kw)).take 200,
          strContainsCI (cellStr c) kw = true) := by
  refine ⟨?_, ?_, List.take_prefix _ _, ?_⟩
  · rw [routeQuery_eq_exec, hintent]
    show listTitlesBranch (pyLowerStrip q) d s = _
    unfold listTitlesBranch
    rw [htitle]
    simp [hkw]
  · simp [List.length_take]
  · intro c hc
    have h1 : c ∈ titles.filter (fun c => strContainsCI (cellStr c) kw) :=
      (List.take_sublist _ _).subset hc
    exact (List.mem_filter.1 h1).2

/-- Witness for C7 at a two-row Title column. -/
theorem c7_list_titles_filter_witness :
    routeQuery "list titles mentioning cancer"
        [("Title", [some "Cancer studies", some "Math"])] [] =
      ("Here are up to 1 titles:", some (OutTable.titles [some "Cancer studies"]), []) := by
  have h := (c7_list_titles_filter "list titles mentioning cancer"
      [("Title", [some "Cancer studies", some "Math"])] []
      [some "Cancer studies", some "Math"] "cancer"
      (by decide) (by decide) (by decide)).1
  rw [h]
  decide

end ChatApp
